import Mathlib

/-!
Shallow embedding of `concierge_agent.py` (a terminal concierge agent).

The program's only nontrivial control flow is the function `run_concierge_agent`
(lines 180-394) and the REPL loop in `main` (lines 399-425).  Every external
collaborator (the Ollama text generator, the Serper search API, the page
fetcher, the IP geolocation service, the SMTP transport and the terminal
`input()` calls) is a single blocking call whose result the code inspects as a
string; we model one turn by an environment record `TurnEnv` holding the
response each of those calls would return, and we record the externally visible
effects of the turn as a list of `Event`s.

Python string primitives used by the code (`str.strip`, `str.lower`,
`str.split`, `str.replace`, `str.startswith`, the `in` operator) are modelled
by structurally recursive functions on the character list of a `String`, so
that every definition evaluates by `decide`/`rfl`.
-/

set_option linter.unusedVariables false

namespace Concierge

/-- The double-quote character, written via its code point. -/
def quoteChar : Char := Char.ofNat 34

/-- Python's `in` operator on strings: `pat` occurs as a contiguous substring of `s`. -/
def strContains (s pat : String) : Bool := decide (pat.data <:+: s.data)

/-- Python's `str.startswith`. -/
def pyStartswith (s pre : String) : Bool := decide (pre.data <+: s.data)

/-- Python's `str.strip()`: drop leading and trailing whitespace. -/
def pyStrip (s : String) : String :=
  ⟨((s.data.dropWhile Char.isWhitespace).reverse.dropWhile Char.isWhitespace).reverse⟩

/-- Python's `str.lower()` (ASCII case folding, which is all the code compares). -/
def pyLower (s : String) : String := ⟨s.data.map Char.toLower⟩

/-- Split a character list at every occurrence of `c`, keeping empty segments,
exactly as Python's `str.split(c)` does. -/
def splitOnChar (c : Char) : List Char → List (List Char)
  | [] => [[]]
  | x :: xs =>
    match splitOnChar c xs with
    | [] => [[]]
    | line :: rest => if x = c then [] :: line :: rest else (x :: line) :: rest

/-- Python's `s.split(c)` on strings, at a single-character separator. -/
def pySplitOn (c : Char) (s : String) : List String :=
  (splitOnChar c s.data).map fun l => ⟨l⟩

/-- Python's `s.replace(c, "")` for a single-character pattern: remove every
occurrence of `c`. -/
def removeChar (c : Char) (s : String) : String := ⟨s.data.filter fun x => x ≠ c⟩

/-- One externally visible effect of a turn, at the boundary between
`run_concierge_agent` and its collaborators. -/
inductive Event where
  | extractEmailCall
  | locCheckCall
  | hasLocCall
  | locateCall
  | queryCall
  | searchCall (query : String)
  | selectCall
  | snippetSummaryCall
  | fetchCall (url : String)
  | synthesizeCall
  | draftEmailCall
  | confirmReusePrompt (addr : String)
  | confirmEmailPrompt
  | addressPrompt
  | mailSend (recipient subject body : String)
deriving DecidableEq

/-- Parse outcome of the email-decision JSON (line 366, `json.loads`), modelled
at the level the surrounding code observes: the truthiness of the
`send_email` field and the `subject`/`body` fields obtained with `.get`
(`none` models an absent field; the code additionally treats `some ""` as
falsy via `all([subject, body])`).  A `JSONDecodeError`/`AttributeError` during
parsing is modelled by the whole decision being `none`. -/
structure EmailDecision where
  send_email : Bool
  subject : Option String
  body : Option String
deriving DecidableEq

/-- Python truthiness of an optional string field, as tested by
`all([subject, body])` on line 370. -/
def truthy : Option String → Bool
  | none => false
  | some s => s ≠ ""

/-- Oracle responses of all external collaborators for one turn.  Each
generation call happens at most once per turn, so its response is one field;
`fetch` gives the `browse_website` result for each URL. -/
structure TurnEnv where
  /-- Response to the email-extraction prompt (line 194). -/
  extractResp : String
  /-- Response to the needs-location classification (line 210). -/
  locNeededResp : String
  /-- Response to the has-location classification (line 221). -/
  hasLocResp : String
  /-- Result of `get_current_location()` (line 224). -/
  locResult : String
  /-- Response to the query-planning prompt (line 245). -/
  queryResp : String
  /-- Response to the URL-selection prompt (line 266). -/
  selectResp : String
  /-- Response to the snippet-only fallback summary prompt (line 281). -/
  snippetSummaryResp : String
  /-- Result of `browse_website(url)` for each URL (line 291). -/
  fetch : String → String
  /-- Response to the synthesis prompt (line 320). -/
  synthResp : String
  /-- Parse outcome of the email-decision response (lines 364-366). -/
  emailDecision : Option EmailDecision
  /-- Terminal reply to the confirmation prompt (lines 377 and 381). -/
  confirmResp : String
  /-- Terminal reply to the fresh-address prompt (line 383). -/
  addressResp : String

/-- Lines 194-196: the extracted recipient is the stripped generation output if
it contains an at sign, else the sentinel "none". -/
def extractRecipient (resp : String) : String :=
  let r := pyStrip resp
  if strContains r "@" then r else "none"

/-- Lines 210-227: the goal after optional location augmentation.  The goal is
extended with " in <location>" exactly when the first classification answer
contains "yes", the second contains "no" (both stripped and lowercased), and
`get_current_location()` did not return an "Error"-prefixed string. -/
def augmentedGoal (env : TurnEnv) (goal : String) : String :=
  if strContains (pyLower (pyStrip env.locNeededResp)) "yes" then
    if strContains (pyLower (pyStrip env.hasLocResp)) "no" then
      if pyStartswith env.locResult "Error" then goal
      else goal ++ " in " ++ env.locResult
    else goal
  else goal

/-- The external calls made by the location-augmentation step (lines 210-227):
the has-location classification runs only when the first answer contains
"yes", and the geolocation call only when the second answer contains "no". -/
def locationEvents (env : TurnEnv) : List Event :=
  if strContains (pyLower (pyStrip env.locNeededResp)) "yes" then
    if strContains (pyLower (pyStrip env.hasLocResp)) "no" then
      [Event.hasLocCall, Event.locateCall]
    else [Event.hasLocCall]
  else []

/-- Line 245: the search query is the planner output, stripped and with every
double quote removed. -/
def plannedQuery (env : TurnEnv) : String := removeChar quoteChar (pyStrip env.queryResp)

/-- Line 267: keep the lines of the selector output that, once stripped, start
with "http"; the kept entries are the stripped lines, in order. -/
def selectURLs (resp : String) : List String :=
  (pySplitOn (Char.ofNat 10) (pyStrip resp)).filterMap fun line =>
    if pyStartswith (pyStrip line) "http" then some (pyStrip line) else none

/-- Line 293: the aggregate entry recorded for one successfully fetched URL. -/
def pageEntry (url text : String) : String := "Content from " ++ url ++ ":\n" ++ text

/-- Lines 289-295: fetch each URL in order and keep an entry for it unless the
fetch result starts with "Error". -/
def research (fetch : String → String) (urls : List String) : List String :=
  urls.filterMap fun url =>
    if pyStartswith (fetch url) "Error" then none
    else some (pageEntry url (fetch url))

/-- Lines 375-384: the recipient the confirmation dialog resolves to, with
"none" meaning the send is suppressed.  `recipient_email` starts as "none";
it becomes the goal-extracted address if that exists and the user types "y"
(after lowering), or the freshly entered address if no address was extracted
and the user types "y". -/
def chosenRecipient (env : TurnEnv) : String :=
  let fromGoal := extractRecipient env.extractResp
  if fromGoal ≠ "none" then
    if pyLower env.confirmResp = "y" then fromGoal else "none"
  else
    if pyLower env.confirmResp = "y" then env.addressResp else "none"

/-- Lines 375-389: the confirmation dialog and the guarded `send_email` call.
The reuse prompt is shown when an address was extracted from the goal;
otherwise the email-at-all prompt is shown, followed by the address prompt
only on an affirmative reply.  Mail goes out iff the resolved recipient is a
non-empty string different from "none". -/
def confirmAndSend (env : TurnEnv) (subject body : String) : List Event :=
  (if extractRecipient env.extractResp ≠ "none" then
    [Event.confirmReusePrompt (extractRecipient env.extractResp)]
  else if pyLower env.confirmResp = "y" then [Event.confirmEmailPrompt, Event.addressPrompt]
  else [Event.confirmEmailPrompt]) ++
    (if chosenRecipient env ≠ "" ∧ chosenRecipient env ≠ "none" then
      [Event.mailSend (chosenRecipient env) subject body]
    else [])

/-- Lines 364-392: the whole email phase.  A decision that failed to parse, has
a falsy `send_email`, or has a missing or empty subject or body produces no
prompt and no send (the `except` clause and the silently skipped branches). -/
def emailEvents (env : TurnEnv) : List Event :=
  match env.emailDecision with
  | none => []
  | some d =>
    if d.send_email then
      match d.subject, d.body with
      | some s, some b => if s ≠ "" ∧ b ≠ "" then confirmAndSend env s b else []
      | _, _ => []
    else []

/-- The email decision the code accepts for sending: it parsed, `send_email`
is truthy, and subject and body are both present and non-empty. -/
def decisionAccepted : Option EmailDecision → Bool
  | none => false
  | some d => d.send_email && truthy d.subject && truthy d.body

/-- The calls every turn makes before branching on the selected URLs:
email extraction, the location step, query planning, the web search with the
planned query, and URL selection (lines 185-267). -/
def preEvents (env : TurnEnv) : List Event :=
  [Event.extractEmailCall, Event.locCheckCall] ++ locationEvents env ++
    [Event.queryCall, Event.searchCall (plannedQuery env), Event.selectCall]

/-- Line 298: the fixed message returned when every selected URL failed to
fetch. -/
def failureMessage : String :=
  "I tried to browse several websites but was blocked or couldn\x27t find any information. Please try again."

/-- Lines 180-394: one turn of the agent.  Returns the summary handed back to
`main` together with the trace of external effects, in program order.
`goal` and `history` only feed prompt text, which the oracle responses in
`env` abstract over. -/
def run_concierge_agent (env : TurnEnv) (goal : String) (history : List String) :
    String × List Event :=
  if selectURLs env.selectResp = [] then
    (env.snippetSummaryResp, preEvents env ++ [Event.snippetSummaryCall])
  else if research env.fetch (selectURLs env.selectResp) = [] then
    (failureMessage, preEvents env ++ (selectURLs env.selectResp).map Event.fetchCall)
  else
    (env.synthResp,
      preEvents env ++ (selectURLs env.selectResp).map Event.fetchCall ++
        [Event.synthesizeCall, Event.draftEmailCall] ++ emailEvents env)

/-- Lines 416-425: one iteration of the `main` loop.  `none` models the
break on the quit/exit sentinels; otherwise the turn runs and the history
grows by the user entry and the agent entry. -/
def main_step (env : TurnEnv) (userGoal : String) (history : List String) :
    Option (List String) :=
  if pyLower userGoal = "quit" ∨ pyLower userGoal = "exit" then none
  else some (history ++
    ["User: " ++ userGoal, "Agent: " ++ (run_concierge_agent env userGoal history).1])

/-- Whether an event is a `send_email` transport call. -/
def isMailSend : Event → Bool
  | Event.mailSend _ _ _ => true
  | _ => false

/-- Whether the trace contains a `send_email` transport call. -/
def hasMailSend (l : List Event) : Bool := l.any isMailSend

/-- Discriminant of an event constructor, used to tell trace segments apart. -/
def kind : Event → Nat
  | .extractEmailCall => 0
  | .locCheckCall => 1
  | .hasLocCall => 2
  | .locateCall => 3
  | .queryCall => 4
  | .searchCall _ => 5
  | .selectCall => 6
  | .snippetSummaryCall => 7
  | .fetchCall _ => 8
  | .synthesizeCall => 9
  | .draftEmailCall => 10
  | .confirmReusePrompt _ => 11
  | .confirmEmailPrompt => 12
  | .addressPrompt => 13
  | .mailSend _ _ _ => 14

/-- The message the claim for the all-fetches-fail exit quotes; the code's
actual message appends one more sentence. -/
def claimedFailureMessage : String :=
  "I tried to browse several websites but was blocked or couldn\x27t find any information."

/-- A turn environment in which every stage succeeds: no location work, one URL
selected, its fetch succeeds, the drafter asks to send, the user confirms and
enters a fresh address. -/
def envHappy : TurnEnv where
  extractResp := "none"
  locNeededResp := "no"
  hasLocResp := ""
  locResult := "Seattle, USA"
  queryResp := "best sushi seattle"
  selectResp := "http://example.com/sushi"
  snippetSummaryResp := "snippet summary"
  fetch := fun _ => "A page about sushi"
  synthResp := "Here are the results"
  emailDecision := some { send_email := true, subject := some "Sushi picks", body := some "The list" }
  confirmResp := "y"
  addressResp := "someone@example.com"

/-- Environment for the snippet-only fallback: the selector output has no line
starting with "http". -/
def envC2 : TurnEnv := { envHappy with selectResp := "no urls here" }

/-- Environment in which two URLs are selected and both fetches error. -/
def envC3 : TurnEnv :=
  { envHappy with
      selectResp := "http://a.com\nhttp://b.com"
      fetch := fun _ => "Error: blocked" }

/-- Environment whose email decision violates the subject/body invariant:
`send_email` is true but the body is empty. -/
def envC4 : TurnEnv :=
  { envHappy with
      emailDecision := some { send_email := true, subject := some "Sushi picks", body := some "" } }

/-- Environment for the location counterexample: the needs-location answer
contains "yes" and the has-location answer is "maybe" (no "yes" and no "no"). -/
def envC5 : TurnEnv :=
  { envHappy with locNeededResp := "yes", hasLocResp := "maybe", locResult := "Seattle, USA" }

/-- Environment in which the location augmentation fires. -/
def envC5b : TurnEnv :=
  { envHappy with locNeededResp := "yes", hasLocResp := "no", locResult := "Seattle, USA" }

/-- Environment in which the user enters a fresh address that is not an email
address at all. -/
def envC9 : TurnEnv := { envHappy with addressResp := "not-an-email" }

/-- Environment in which the user replies "yes" (not "y") to the confirmation
prompt. -/
def envC10 : TurnEnv := { envHappy with confirmResp := "yes" }

example : selectURLs " http://a.com\nnope\n  https://b.org " =
    ["http://a.com", "https://b.org"] := by decide

example : extractRecipient "  bob@example.com " = "bob@example.com" := by decide

example : extractRecipient "no address here" = "none" := by decide

/-! Helper lemmas about the embedded string primitives and the trace. -/

/-- Stripping only removes characters at the ends: the stripped character list
occurs inside the original one. -/
theorem pyStrip_data_within (s : String) : (pyStrip s).data <:+: s.data := by
  have h1 : s.data.dropWhile Char.isWhitespace <:+ s.data := List.dropWhile_suffix _
  have h2 : (s.data.dropWhile Char.isWhitespace).reverse.dropWhile Char.isWhitespace <:+
      (s.data.dropWhile Char.isWhitespace).reverse := List.dropWhile_suffix _
  have h3 : ((s.data.dropWhile Char.isWhitespace).reverse.dropWhile Char.isWhitespace).reverse <+:
      s.data.dropWhile Char.isWhitespace := by
    have h4 := List.reverse_prefix.mpr h2
    rwa [List.reverse_reverse] at h4
  have h5 := List.IsPrefix.isInfix h3
  have h6 := List.IsSuffix.isInfix h1
  exact List.IsInfix.trans h5 h6

/-- A substring absent from a string is absent from its stripped form. -/
theorem strContains_pyStrip_false (s pat : String) (h : strContains s pat = false) :
    strContains (pyStrip s) pat = false := by
  unfold strContains at h ⊢
  simp only [decide_eq_false_iff_not] at h ⊢
  exact fun hc => h (List.IsInfix.trans hc (pyStrip_data_within s))

theorem kind_of_mem_locationEvents (env : TurnEnv) (e : Event)
    (he : e ∈ locationEvents env) : kind e = 2 ∨ kind e = 3 := by
  unfold locationEvents at he
  split at he
  · split at he
    · fin_cases he <;> simp [kind]
    · fin_cases he <;> simp [kind]
  · simp at he

theorem kind_of_mem_preEvents (env : TurnEnv) (e : Event)
    (he : e ∈ preEvents env) : kind e ≤ 6 := by
  unfold preEvents at he
  rcases List.mem_append.1 he with h | h
  · rcases List.mem_append.1 h with h2 | h2
    · fin_cases h2 <;> simp [kind]
    · rcases kind_of_mem_locationEvents env e h2 with h3 | h3 <;> omega
  · fin_cases h <;> simp [kind]

theorem kind_of_mem_map_fetchCall (urls : List String) (e : Event)
    (he : e ∈ urls.map Event.fetchCall) : kind e = 8 := by
  rcases List.mem_map.1 he with ⟨u, _, rfl⟩
  rfl

theorem kind_of_mem_confirmAndSend (env : TurnEnv) (s b : String) (e : Event)
    (he : e ∈ confirmAndSend env s b) : 11 ≤ kind e := by
  unfold confirmAndSend at he
  rcases List.mem_append.1 he with h | h
  · split at h
    · fin_cases h <;> simp [kind]
    · split at h
      · fin_cases h <;> simp [kind]
      · fin_cases h <;> simp [kind]
  · split at h
    · fin_cases h <;> simp [kind]
    · simp at h

theorem kind_of_mem_emailEvents (env : TurnEnv) (e : Event)
    (he : e ∈ emailEvents env) : 11 ≤ kind e := by
  unfold emailEvents at he
  split at he
  · simp at he
  · split at he
    · split at he
      · split at he
        · exact kind_of_mem_confirmAndSend env _ _ e he
        · simp at he
      · simp at he
    · simp at he

/-- An event with a discriminant other than 14 is not a mail send. -/
theorem isMailSend_eq_false (e : Event) (h : kind e ≤ 13) : isMailSend e = false := by
  cases e <;> simp_all [isMailSend, kind]

theorem hasMailSend_eq_false (l : List Event) (h : ∀ e ∈ l, kind e ≤ 13) :
    hasMailSend l = false := by
  unfold hasMailSend
  rw [List.any_eq_false]
  intro e he
  simp [isMailSend_eq_false e (h e he)]

theorem hasMailSend_append (l₁ l₂ : List Event) :
    hasMailSend (l₁ ++ l₂) = (hasMailSend l₁ || hasMailSend l₂) :=
  List.any_append

theorem hasMailSend_preEvents (env : TurnEnv) : hasMailSend (preEvents env) = false :=
  hasMailSend_eq_false _ fun e he => Nat.le_trans (kind_of_mem_preEvents env e he) (by omega)

theorem hasMailSend_map_fetchCall (urls : List String) :
    hasMailSend (urls.map Event.fetchCall) = false :=
  hasMailSend_eq_false _ fun e he => by rw [kind_of_mem_map_fetchCall urls e he]; omega

/-- The confirmation dialog produces a mail send exactly when the resolved
recipient is non-empty and not the sentinel. -/
theorem hasMailSend_confirmAndSend (env : TurnEnv) (s b : String) :
    hasMailSend (confirmAndSend env s b) = true ↔
      chosenRecipient env ≠ "" ∧ chosenRecipient env ≠ "none" := by
  unfold confirmAndSend
  rw [hasMailSend_append, Bool.or_eq_true]
  have hp : hasMailSend
      (if extractRecipient env.extractResp ≠ "none" then
        [Event.confirmReusePrompt (extractRecipient env.extractResp)]
      else if pyLower env.confirmResp = "y" then [Event.confirmEmailPrompt, Event.addressPrompt]
      else [Event.confirmEmailPrompt]) = false := by
    split
    · rfl
    · split <;> rfl
  rw [hp]
  simp only [Bool.false_eq_true, false_or]
  split
  · rename_i hcond
    simp only [hasMailSend, List.any_cons, List.any_nil, isMailSend, Bool.or_false]
    exact ⟨fun _ => hcond, fun _ => trivial⟩
  · rename_i hcond
    simp only [hasMailSend, List.any_nil, Bool.false_eq_true, false_iff]
    exact hcond

/-- The email phase produces a mail send exactly when the decision was accepted
and the resolved recipient is usable. -/
theorem hasMailSend_emailEvents (env : TurnEnv) :
    hasMailSend (emailEvents env) = true ↔
      decisionAccepted env.emailDecision = true ∧
        chosenRecipient env ≠ "" ∧ chosenRecipient env ≠ "none" := by
  cases hd : env.emailDecision with
  | none => simp [emailEvents, hd, hasMailSend, decisionAccepted]
  | some d =>
    cases hse : d.send_email with
    | false => simp [emailEvents, hd, hse, hasMailSend, decisionAccepted]
    | true =>
      cases hs : d.subject with
      | none => simp [emailEvents, hd, hse, hs, hasMailSend, decisionAccepted, truthy]
      | some s =>
        cases hb : d.body with
        | none => simp [emailEvents, hd, hse, hs, hb, hasMailSend, decisionAccepted, truthy]
        | some b =>
          simp only [emailEvents, hd, hse, hs, hb, decisionAccepted, truthy, if_true]
          split
          · rename_i hcond
            rw [hasMailSend_confirmAndSend]
            constructor
            · intro h
              refine ⟨?_, h⟩
              simp [hcond.1, hcond.2]
            · intro h
              exact h.2
          · rename_i hcond
            simp only [hasMailSend, List.any_nil, Bool.false_eq_true, false_iff]
            intro h
            rcases h with ⟨hacc, _⟩
            apply hcond
            constructor
            · intro hsz
              rw [hsz] at hacc
              simp at hacc
            · intro hbz
              rw [hbz] at hacc
              simp at hacc

/-- If the resolved recipient is not the sentinel, the user typed "y". -/
theorem chosenRecipient_confirm (env : TurnEnv) (h : chosenRecipient env ≠ "none") :
    pyLower env.confirmResp = "y" := by
  unfold chosenRecipient at h
  split at h
  · assumption
  · simp at h

/-- The email-drafting generation call occurs exactly when the turn reached the
synthesis stage: some URL was selected and some fetch succeeded. -/
theorem draftEmail_mem_iff (env : TurnEnv) (goal : String) (history : List String) :
    Event.draftEmailCall ∈ (run_concierge_agent env goal history).2 ↔
      selectURLs env.selectResp ≠ [] ∧
        research env.fetch (selectURLs env.selectResp) ≠ [] := by
  unfold run_concierge_agent
  split
  · rename_i hu
    constructor
    · intro hmem
      exfalso
      rcases List.mem_append.1 hmem with hm | hm
      · have := kind_of_mem_preEvents env _ hm
        simp [kind] at this
      · simp at hm
    · rintro ⟨h1, _⟩
      exact absurd hu h1
  · rename_i hu
    split
    · rename_i hr
      constructor
      · intro hmem
        exfalso
        rcases List.mem_append.1 hmem with hm | hm
        · have := kind_of_mem_preEvents env _ hm
          simp [kind] at this
        · have := kind_of_mem_map_fetchCall _ _ hm
          simp [kind] at this
      · rintro ⟨_, h2⟩
        exact absurd hr h2
    · rename_i hr
      constructor
      · intro _
        exact ⟨hu, hr⟩
      · intro _
        simp

theorem hasMailSend_synthDraft :
    hasMailSend [Event.synthesizeCall, Event.draftEmailCall] = false := rfl

/-- The aggregate keeps exactly the non-error fetches, in selection order. -/
theorem research_eq_filter_map (fetch : String → String) (urls : List String) :
    research fetch urls =
      (urls.filter fun u => !(pyStartswith (fetch u) "Error")).map
        fun u => pageEntry u (fetch u) := by
  induction urls with
  | nil => rfl
  | cons u rest ih =>
    unfold research at ih ⊢
    rw [List.filterMap_cons, List.filter_cons]
    cases hcase : pyStartswith (fetch u) "Error" with
    | true => simp [hcase, ih]
    | false => simp [hcase, ih]

/-- A decision that failed to parse, or that asks to send with a missing or
empty subject or body, produces no email-phase event at all. -/
theorem emailEvents_eq_nil (env : TurnEnv)
    (hbad : env.emailDecision = none ∨
      ∃ d, env.emailDecision = some d ∧ d.send_email = true ∧
        (truthy d.subject = false ∨ truthy d.body = false)) :
    emailEvents env = [] := by
  rcases hbad with h | ⟨d, hd, hse, hsb⟩
  · simp [emailEvents, h]
  · cases hs : d.subject with
    | none => simp [emailEvents, hd, hse, hs]
    | some s =>
      cases hb : d.body with
      | none => simp [emailEvents, hd, hse, hs, hb]
      | some b =>
        rcases hsb with ht | ht
        · rw [hs] at ht
          simp only [truthy, decide_eq_false_iff_not, ne_eq, not_not] at ht
          simp [emailEvents, hd, hse, hs, hb, ht]
        · rw [hb] at ht
          simp only [truthy, decide_eq_false_iff_not, ne_eq, not_not] at ht
          simp [emailEvents, hd, hse, hs, hb, ht]

theorem count_map_fetchCall (urls : List String) (u : String) :
    (urls.map Event.fetchCall).count (Event.fetchCall u) = urls.count u := by
  induction urls with
  | nil => rfl
  | cons v rest ih =>
    rw [List.map_cons, List.count_cons, List.count_cons, ih]
    by_cases h : v = u <;> simp [h]

/-- The search event carries exactly the planned query. -/
theorem searchCall_mem_preEvents (env : TurnEnv) (q : String) :
    Event.searchCall q ∈ preEvents env ↔ q = plannedQuery env := by
  unfold preEvents
  constructor
  · intro h
    rcases List.mem_append.1 h with h1 | h1
    · rcases List.mem_append.1 h1 with h2 | h2
      · simp at h2
      · rcases kind_of_mem_locationEvents env _ h2 with h3 | h3 <;> simp [kind] at h3
    · simp at h1
      exact h1
  · rintro rfl
    simp

/-! The claims. -/

/-- C7: the recipient extracted from the goal equals the stripped generation
output when that stripped text contains "@", and the sentinel "none"
otherwise; in particular an output with no "@" at all yields "none". -/
theorem spec_C7 (resp : String) :
    (strContains (pyStrip resp) "@" = true → extractRecipient resp = pyStrip resp) ∧
    (strContains (pyStrip resp) "@" = false → extractRecipient resp = "none") ∧
    (strContains resp "@" = false → extractRecipient resp = "none") := by
  refine ⟨fun h => ?_, fun h => ?_, fun h => ?_⟩
  · simp [extractRecipient, h]
  · simp [extractRecipient, h]
  · simp [extractRecipient, strContains_pyStrip_false resp "@" h]

theorem spec_C7_witness :
    extractRecipient " a@b.c " = pyStrip " a@b.c " ∧
      extractRecipient "no address here" = "none" :=
  ⟨(spec_C7 " a@b.c ").1 (by decide), (spec_C7 "no address here").2.2 (by decide)⟩

/-- C8: the query handed to the search step is exactly the planner output,
stripped of surrounding whitespace and with every double-quote character
removed; no length or word-count validation intervenes. -/
theorem spec_C8 (env : TurnEnv) (goal : String) (history : List String) (q : String) :
    Event.searchCall q ∈ (run_concierge_agent env goal history).2 ↔
      q = removeChar quoteChar (pyStrip env.queryResp) := by
  have hplan : (q = plannedQuery env) = (q = removeChar quoteChar (pyStrip env.queryResp)) := rfl
  rw [← hplan]
  unfold run_concierge_agent
  split
  · rw [show ((env.snippetSummaryResp, preEvents env ++ [Event.snippetSummaryCall])).2 =
      preEvents env ++ [Event.snippetSummaryCall] from rfl]
    constructor
    · intro h
      rcases List.mem_append.1 h with h1 | h1
      · exact (searchCall_mem_preEvents env q).1 h1
      · simp at h1
    · intro h
      exact List.mem_append.2 (Or.inl ((searchCall_mem_preEvents env q).2 h))
  · split
    · constructor
      · intro h
        rcases List.mem_append.1 h with h1 | h1
        · exact (searchCall_mem_preEvents env q).1 h1
        · have := kind_of_mem_map_fetchCall _ _ h1
          simp [kind] at this
      · intro h
        exact List.mem_append.2 (Or.inl ((searchCall_mem_preEvents env q).2 h))
    · constructor
      · intro h
        rcases List.mem_append.1 h with h1 | h1
        · rcases List.mem_append.1 h1 with h2 | h2
          · rcases List.mem_append.1 h2 with h3 | h3
            · exact (searchCall_mem_preEvents env q).1 h3
            · have := kind_of_mem_map_fetchCall _ _ h3
              simp [kind] at this
          · simp at h2
        · have := kind_of_mem_emailEvents env _ h1
          simp [kind] at this
      · intro h
        exact List.mem_append.2 (Or.inl (List.mem_append.2 (Or.inl (List.mem_append.2
          (Or.inl ((searchCall_mem_preEvents env q).2 h))))))

theorem spec_C8_witness :
    Event.searchCall (removeChar quoteChar (pyStrip envHappy.queryResp)) ∈
      (run_concierge_agent envHappy "find sushi" []).2 :=
  (spec_C8 envHappy "find sushi" [] _).2 rfl

/-- C5 counterexample: with a needs-location answer containing "yes", a
has-location answer "maybe" (which lacks "yes", so the claim requires the
rewrite) and a successful location result, the code leaves the goal
unchanged, because it looks for the substring "no", not for the absence of
"yes". -/
theorem spec_C5_cex :
    strContains (pyLower (pyStrip envC5.locNeededResp)) "yes" = true ∧
      strContains (pyLower (pyStrip envC5.hasLocResp)) "yes" = false ∧
      pyStartswith envC5.locResult "Error" = false ∧
      augmentedGoal envC5 "sushi restaurants near me" = "sushi restaurants near me" ∧
      augmentedGoal envC5 "sushi restaurants near me" ≠
        "sushi restaurants near me" ++ " in " ++ envC5.locResult := by
  refine ⟨by decide, by decide, by decide, by decide, by decide⟩

/-- C5 (amended): the goal is rewritten to goal ++ " in <location>" exactly
when the needs-location answer contains "yes", the has-location answer
contains "no" (both stripped and lowercased), and the location result does
not start with "Error"; in every other case, including an "Error"-prefixed
location result, the goal is unchanged. -/
theorem spec_C5_amended (env : TurnEnv) (goal : String) :
    (strContains (pyLower (pyStrip env.locNeededResp)) "yes" = true ∧
        strContains (pyLower (pyStrip env.hasLocResp)) "no" = true ∧
        pyStartswith env.locResult "Error" = false →
      augmentedGoal env goal = goal ++ " in " ++ env.locResult) ∧
    (strContains (pyLower (pyStrip env.locNeededResp)) "yes" = false ∨
        strContains (pyLower (pyStrip env.hasLocResp)) "no" = false ∨
        pyStartswith env.locResult "Error" = true →
      augmentedGoal env goal = goal) := by
  constructor
  · rintro ⟨h1, h2, h3⟩
    simp [augmentedGoal, h1, h2, h3]
  · intro h
    rcases h with h | h | h <;> simp [augmentedGoal, h]

theorem spec_C5_witness :
    augmentedGoal envC5b "sushi restaurants near me" =
        "sushi restaurants near me" ++ " in " ++ envC5b.locResult ∧
      augmentedGoal envHappy "capital of France" = "capital of France" :=
  ⟨(spec_C5_amended envC5b "sushi restaurants near me").1 ⟨by decide, by decide, by decide⟩,
   (spec_C5_amended envHappy "capital of France").2 (Or.inl (by decide))⟩

/-- C6: a completed turn appends exactly two entries to the history — the user
utterance then the agent summary — and leaves every existing entry in place;
the pipeline function itself takes the history as a value and returns a
summary, so it cannot mutate it. -/
theorem spec_C6 (env : TurnEnv) (input : String) (hist hist' : List String)
    (hs : main_step env input hist = some hist') :
    hist' = hist ++
        ["User: " ++ input, "Agent: " ++ (run_concierge_agent env input hist).1] ∧
      hist'.length = hist.length + 2 ∧
      hist'.take hist.length = hist := by
  unfold main_step at hs
  split at hs
  · simp at hs
  · have h1 := (Option.some.inj hs).symm
    subst h1
    refine ⟨rfl, by simp, List.take_left hist _⟩

theorem spec_C6_witness :
    ["User: hi", "Agent: hello", "User: find sushi", "Agent: Here are the results"] =
        ["User: hi", "Agent: hello"] ++
          ["User: " ++ "find sushi",
            "Agent: " ++ (run_concierge_agent envHappy "find sushi"
              ["User: hi", "Agent: hello"]).1] ∧
      ([ "User: hi", "Agent: hello", "User: find sushi",
        "Agent: Here are the results"] : List String).length =
        (["User: hi", "Agent: hello"] : List String).length + 2 ∧
      (["User: hi", "Agent: hello", "User: find sushi",
        "Agent: Here are the results"] : List String).take
          (["User: hi", "Agent: hello"] : List String).length =
        ["User: hi", "Agent: hello"] :=
  spec_C6 envHappy "find sushi" ["User: hi", "Agent: hello"]
    ["User: hi", "Agent: hello", "User: find sushi", "Agent: Here are the results"]
    (by decide)

/-- C1: on every turn, without any reachability assumption, a mail-transport
call occurs exactly when the email-drafting call happened on that turn and
the parsed decision was accepted (send flag truthy, subject and body present
and non-empty) and the user answered "y" and the resolved recipient is
non-empty and differs from the sentinel "none"; in particular the
snippet-fallback and all-fetches-fail exits never send mail, and on every
path a send implies an affirmative "y" answer. -/
theorem spec_C1 (env : TurnEnv) (goal : String) (history : List String) :
    (hasMailSend (run_concierge_agent env goal history).2 = true ↔
      Event.draftEmailCall ∈ (run_concierge_agent env goal history).2 ∧
        decisionAccepted env.emailDecision = true ∧ pyLower env.confirmResp = "y" ∧
        chosenRecipient env ≠ "" ∧ chosenRecipient env ≠ "none") ∧
    (hasMailSend (run_concierge_agent env goal history).2 = true →
      pyLower env.confirmResp = "y") := by
  by_cases hu : selectURLs env.selectResp = []
  · have htr : (run_concierge_agent env goal history).2 =
        preEvents env ++ [Event.snippetSummaryCall] := by
      unfold run_concierge_agent
      rw [if_pos hu]
    have hnm : hasMailSend (run_concierge_agent env goal history).2 = false := by
      rw [htr, hasMailSend_append, hasMailSend_preEvents]
      rfl
    have hnd : Event.draftEmailCall ∉ (run_concierge_agent env goal history).2 := by
      rw [htr]
      intro hd
      rcases List.mem_append.1 hd with h | h
      · have := kind_of_mem_preEvents env _ h
        simp [kind] at this
      · simp at h
    refine ⟨?_, ?_⟩
    · rw [hnm]
      constructor
      · intro h
        simp at h
      · intro hc
        exact absurd hc.1 hnd
    · intro hm
      rw [hnm] at hm
      simp at hm
  · by_cases hr : research env.fetch (selectURLs env.selectResp) = []
    · have htr : (run_concierge_agent env goal history).2 =
          preEvents env ++ (selectURLs env.selectResp).map Event.fetchCall := by
        unfold run_concierge_agent
        rw [if_neg hu, if_pos hr]
      have hnm : hasMailSend (run_concierge_agent env goal history).2 = false := by
        rw [htr, hasMailSend_append, hasMailSend_preEvents, hasMailSend_map_fetchCall]
        rfl
      have hnd : Event.draftEmailCall ∉ (run_concierge_agent env goal history).2 := by
        rw [htr]
        intro hd
        rcases List.mem_append.1 hd with h | h
        · have := kind_of_mem_preEvents env _ h
          simp [kind] at this
        · have := kind_of_mem_map_fetchCall _ _ h
          simp [kind] at this
      refine ⟨?_, ?_⟩
      · rw [hnm]
        constructor
        · intro h
          simp at h
        · intro hc
          exact absurd hc.1 hnd
      · intro hm
        rw [hnm] at hm
        simp at hm
    · have hdm : Event.draftEmailCall ∈ (run_concierge_agent env goal history).2 :=
        (draftEmail_mem_iff env goal history).2 ⟨hu, hr⟩
      have htr : (run_concierge_agent env goal history).2 =
          preEvents env ++ (selectURLs env.selectResp).map Event.fetchCall ++
            [Event.synthesizeCall, Event.draftEmailCall] ++ emailEvents env := by
        unfold run_concierge_agent
        rw [if_neg hu, if_neg hr]
      have hms : hasMailSend (run_concierge_agent env goal history).2 =
          hasMailSend (emailEvents env) := by
        rw [htr, hasMailSend_append, hasMailSend_append, hasMailSend_append,
          hasMailSend_preEvents, hasMailSend_map_fetchCall, hasMailSend_synthDraft]
        simp
      refine ⟨?_, ?_⟩
      · rw [hms, hasMailSend_emailEvents]
        constructor
        · rintro ⟨ha, hb, hc⟩
          exact ⟨hdm, ha, chosenRecipient_confirm env hc, hb, hc⟩
        · rintro ⟨_, ha, _, hb, hc⟩
          exact ⟨ha, hb, hc⟩
      · intro hm
        rw [hms, hasMailSend_emailEvents] at hm
        exact chosenRecipient_confirm env hm.2.2

theorem spec_C1_witness :
    hasMailSend (run_concierge_agent envHappy "find sushi" []).2 = true ∧
      Event.draftEmailCall ∈ (run_concierge_agent envHappy "find sushi" []).2 ∧
      decisionAccepted envHappy.emailDecision = true ∧
      pyLower envHappy.confirmResp = "y" ∧
      chosenRecipient envHappy ≠ "" ∧ chosenRecipient envHappy ≠ "none" :=
  ⟨(spec_C1 envHappy "find sushi" []).1.mpr
      ⟨by decide, by decide, by decide, by decide, by decide⟩,
    by decide, by decide, by decide, by decide, by decide⟩

/-- C2: when no selector line starts with "http" after stripping, the turn
fetches no page, never synthesizes from aggregated text, never drafts an
email, makes exactly one snippet-summary generation call, and returns that
summary as its output. -/
theorem spec_C2 (env : TurnEnv) (goal : String) (history : List String)
    (hsel : ∀ line ∈ pySplitOn (Char.ofNat 10) (pyStrip env.selectResp),
      pyStartswith (pyStrip line) "http" = false) :
    (∀ u, Event.fetchCall u ∉ (run_concierge_agent env goal history).2) ∧
      Event.synthesizeCall ∉ (run_concierge_agent env goal history).2 ∧
      Event.draftEmailCall ∉ (run_concierge_agent env goal history).2 ∧
      ((run_concierge_agent env goal history).2).count Event.snippetSummaryCall = 1 ∧
      (run_concierge_agent env goal history).1 = env.snippetSummaryResp := by
  have hu : selectURLs env.selectResp = [] := by
    unfold selectURLs
    rw [List.filterMap_eq_nil_iff]
    intro line hline
    simp [hsel line hline]
  have htr : (run_concierge_agent env goal history).2 =
      preEvents env ++ [Event.snippetSummaryCall] := by
    unfold run_concierge_agent
    rw [if_pos hu]
  have hout : (run_concierge_agent env goal history).1 = env.snippetSummaryResp := by
    unfold run_concierge_agent
    rw [if_pos hu]
  refine ⟨?_, ?_, ?_, ?_, hout⟩
  · intro u hmem
    rw [htr] at hmem
    rcases List.mem_append.1 hmem with h | h
    · have := kind_of_mem_preEvents env _ h
      simp [kind] at this
    · simp at h
  · intro hmem
    rw [htr] at hmem
    rcases List.mem_append.1 hmem with h | h
    · have := kind_of_mem_preEvents env _ h
      simp [kind] at this
    · simp at h
  · intro hmem
    rw [htr] at hmem
    rcases List.mem_append.1 hmem with h | h
    · have := kind_of_mem_preEvents env _ h
      simp [kind] at this
    · simp at h
  · rw [htr, List.count_append]
    have h0 : (preEvents env).count Event.snippetSummaryCall = 0 := by
      rw [List.count_eq_zero]
      intro hmem
      have := kind_of_mem_preEvents env _ hmem
      simp [kind] at this
    rw [h0]
    rfl

theorem spec_C2_witness :
    ((run_concierge_agent envC2 "find sushi" []).2).count Event.snippetSummaryCall = 1 ∧
      (run_concierge_agent envC2 "find sushi" []).1 = envC2.snippetSummaryResp :=
  ⟨(spec_C2 envC2 "find sushi" [] (by decide)).2.2.2.1,
   (spec_C2 envC2 "find sushi" [] (by decide)).2.2.2.2⟩

/-- C3 counterexample: with two selected URLs whose fetches both return
"Error"-prefixed text, the turn's output is not the message the claim
quotes — the code's fixed message carries a trailing " Please try again."
sentence. -/
theorem spec_C3_cex :
    selectURLs envC3.selectResp ≠ [] ∧
      (∀ u ∈ selectURLs envC3.selectResp, pyStartswith (envC3.fetch u) "Error" = true) ∧
      (run_concierge_agent envC3 "find sushi" []).1 ≠ claimedFailureMessage ∧
      (run_concierge_agent envC3 "find sushi" []).1 = failureMessage := by
  refine ⟨by decide, by decide, by decide, by decide⟩

/-- C3 (amended): for every non-empty selection whose fetches all error, the
turn returns the fixed failure message "I tried to browse several websites
but was blocked or couldn\x27t find any information. Please try again.", no
synthesis or email-drafting call is made and no mail is sent; error results
are excluded from the aggregate, which otherwise preserves selection order,
and each selected URL is fetched exactly as often as it was selected (no
retries). -/
theorem spec_C3_amended (env : TurnEnv) (goal : String) (history : List String)
    (hne : selectURLs env.selectResp ≠ [])
    (herr : ∀ u ∈ selectURLs env.selectResp, pyStartswith (env.fetch u) "Error" = true) :
    (run_concierge_agent env goal history).1 = failureMessage ∧
      Event.synthesizeCall ∉ (run_concierge_agent env goal history).2 ∧
      Event.draftEmailCall ∉ (run_concierge_agent env goal history).2 ∧
      hasMailSend (run_concierge_agent env goal history).2 = false ∧
      (∀ fetch urls, research fetch urls =
        (urls.filter fun u => !(pyStartswith (fetch u) "Error")).map
          fun u => pageEntry u (fetch u)) ∧
      (∀ u, ((run_concierge_agent env goal history).2).count (Event.fetchCall u) =
        (selectURLs env.selectResp).count u) := by
  have hr : research env.fetch (selectURLs env.selectResp) = [] := by
    rw [research_eq_filter_map]
    have hf : (selectURLs env.selectResp).filter
        (fun u => !(pyStartswith (env.fetch u) "Error")) = [] := by
      rw [List.filter_eq_nil_iff]
      intro u hu
      simp [herr u hu]
    rw [hf]
    rfl
  have htr : (run_concierge_agent env goal history).2 =
      preEvents env ++ (selectURLs env.selectResp).map Event.fetchCall := by
    unfold run_concierge_agent
    rw [if_neg hne, if_pos hr]
  have hout : (run_concierge_agent env goal history).1 = failureMessage := by
    unfold run_concierge_agent
    rw [if_neg hne, if_pos hr]
  refine ⟨hout, ?_, ?_, ?_, fun f us => research_eq_filter_map f us, ?_⟩
  · intro hmem
    rw [htr] at hmem
    rcases List.mem_append.1 hmem with h | h
    · have := kind_of_mem_preEvents env _ h
      simp [kind] at this
    · have := kind_of_mem_map_fetchCall _ _ h
      simp [kind] at this
  · intro hmem
    rw [htr] at hmem
    rcases List.mem_append.1 hmem with h | h
    · have := kind_of_mem_preEvents env _ h
      simp [kind] at this
    · have := kind_of_mem_map_fetchCall _ _ h
      simp [kind] at this
  · rw [htr, hasMailSend_append, hasMailSend_preEvents, hasMailSend_map_fetchCall]
    rfl
  · intro u
    rw [htr, List.count_append]
    have h0 : (preEvents env).count (Event.fetchCall u) = 0 := by
      rw [List.count_eq_zero]
      intro hmem
      have := kind_of_mem_preEvents env _ hmem
      simp [kind] at this
    rw [h0, count_map_fetchCall]
    omega

theorem spec_C3_witness :
    (run_concierge_agent envC3 "find pizza" []).1 = failureMessage ∧
      hasMailSend (run_concierge_agent envC3 "find pizza" []).2 = false :=
  ⟨(spec_C3_amended envC3 "find pizza" [] (by decide) (by decide)).1,
   (spec_C3_amended envC3 "find pizza" [] (by decide) (by decide)).2.2.2.1⟩

/-- C4: when the email-decision call happened but its output failed to parse,
or parsed with a truthy send flag and a missing or empty subject or body, no
mail is sent, no confirmation or address prompt is shown, and the turn still
returns the synthesized summary unchanged. -/
theorem spec_C4 (env : TurnEnv) (goal : String) (history : List String)
    (hreach : Event.draftEmailCall ∈ (run_concierge_agent env goal history).2)
    (hbad : env.emailDecision = none ∨
      ∃ d, env.emailDecision = some d ∧ d.send_email = true ∧
        (truthy d.subject = false ∨ truthy d.body = false)) :
    hasMailSend (run_concierge_agent env goal history).2 = false ∧
      (∀ a, Event.confirmReusePrompt a ∉ (run_concierge_agent env goal history).2) ∧
      Event.confirmEmailPrompt ∉ (run_concierge_agent env goal history).2 ∧
      Event.addressPrompt ∉ (run_concierge_agent env goal history).2 ∧
      (run_concierge_agent env goal history).1 = env.synthResp := by
  have hcond := (draftEmail_mem_iff env goal history).1 hreach
  have hnil := emailEvents_eq_nil env hbad
  have htr : (run_concierge_agent env goal history).2 =
      preEvents env ++ (selectURLs env.selectResp).map Event.fetchCall ++
        [Event.synthesizeCall, Event.draftEmailCall] := by
    unfold run_concierge_agent
    rw [if_neg hcond.1, if_neg hcond.2, hnil, List.append_nil]
  have hout : (run_concierge_agent env goal history).1 = env.synthResp := by
    unfold run_concierge_agent
    rw [if_neg hcond.1, if_neg hcond.2]
  have hnotmem : ∀ e : Event, 11 ≤ kind e →
      e ∉ (run_concierge_agent env goal history).2 := by
    intro e hk hmem
    rw [htr] at hmem
    rcases List.mem_append.1 hmem with h | h
    · rcases List.mem_append.1 h with h1 | h1
      · have := kind_of_mem_preEvents env _ h1
        omega
      · have := kind_of_mem_map_fetchCall _ _ h1
        omega
    · simp only [List.mem_cons, List.not_mem_nil, or_false] at h
      rcases h with rfl | rfl <;> simp [kind] at hk
  refine ⟨?_, ?_, ?_, ?_, hout⟩
  · rw [htr, hasMailSend_append, hasMailSend_append, hasMailSend_preEvents,
      hasMailSend_map_fetchCall, hasMailSend_synthDraft]
    rfl
  · intro a
    exact hnotmem (Event.confirmReusePrompt a) (by simp [kind])
  · exact hnotmem Event.confirmEmailPrompt (by simp [kind])
  · exact hnotmem Event.addressPrompt (by simp [kind])

theorem spec_C4_witness :
    hasMailSend (run_concierge_agent envC4 "find sushi" []).2 = false ∧
      (run_concierge_agent envC4 "find sushi" []).1 = envC4.synthResp :=
  ⟨(spec_C4 envC4 "find sushi" [] (by decide)
      (Or.inr ⟨{ send_email := true, subject := some "Sushi picks", body := some "" },
        rfl, rfl, Or.inr (by decide)⟩)).1,
   (spec_C4 envC4 "find sushi" [] (by decide)
      (Or.inr ⟨{ send_email := true, subject := some "Sushi picks", body := some "" },
        rfl, rfl, Or.inr (by decide)⟩)).2.2.2.2⟩

/-- C9: the freshly entered address is used verbatim, with no validation:
with no recipient extracted from the goal, an accepted decision and a "y"
confirmation, entering the non-empty string "not-an-email" — which contains
no "@" and is not "none" — produces a mail-transport call with exactly that
string as the recipient. -/
theorem spec_C9 :
    strContains envC9.addressResp "@" = false ∧
      envC9.addressResp ≠ "" ∧ envC9.addressResp ≠ "none" ∧
      extractRecipient envC9.extractResp = "none" ∧
      Event.mailSend "not-an-email" "Sushi picks" "The list" ∈
        (run_concierge_agent envC9 "find sushi" []).2 := by
  refine ⟨by decide, by decide, by decide, by decide, by decide⟩

/-- C10: an affirmative answer is exactly the lowercased input "y"; any other
reply — including "yes" — leaves the recipient unresolved ("none") and no
mail-transport call happens. -/
theorem spec_C10 (env : TurnEnv) (goal : String) (history : List String)
    (h : pyLower env.confirmResp ≠ "y") :
    chosenRecipient env = "none" ∧
      hasMailSend (run_concierge_agent env goal history).2 = false := by
  have hcr : chosenRecipient env = "none" := by
    unfold chosenRecipient
    split
    · rename_i hy
      exact absurd hy h
    · simp
  refine ⟨hcr, ?_⟩
  by_cases hu : selectURLs env.selectResp = []
  · unfold run_concierge_agent
    rw [if_pos hu]
    rw [show ((env.snippetSummaryResp, preEvents env ++ [Event.snippetSummaryCall])).2 =
      preEvents env ++ [Event.snippetSummaryCall] from rfl]
    rw [hasMailSend_append, hasMailSend_preEvents]
    rfl
  · by_cases hr : research env.fetch (selectURLs env.selectResp) = []
    · unfold run_concierge_agent
      rw [if_neg hu, if_pos hr]
      rw [show ((failureMessage,
        preEvents env ++ (selectURLs env.selectResp).map Event.fetchCall)).2 =
        preEvents env ++ (selectURLs env.selectResp).map Event.fetchCall from rfl]
      rw [hasMailSend_append, hasMailSend_preEvents, hasMailSend_map_fetchCall]
      rfl
    · have hME : hasMailSend (emailEvents env) = false := by
        cases hcase : hasMailSend (emailEvents env) with
        | false => rfl
        | true =>
          have := (hasMailSend_emailEvents env).1 hcase
          exact absurd hcr this.2.2
      unfold run_concierge_agent
      rw [if_neg hu, if_neg hr]
      rw [show ((env.synthResp,
        preEvents env ++ (selectURLs env.selectResp).map Event.fetchCall ++
          [Event.synthesizeCall, Event.draftEmailCall] ++ emailEvents env)).2 =
        preEvents env ++ (selectURLs env.selectResp).map Event.fetchCall ++
          [Event.synthesizeCall, Event.draftEmailCall] ++ emailEvents env from rfl]
      rw [hasMailSend_append, hasMailSend_append, hasMailSend_append,
        hasMailSend_preEvents, hasMailSend_map_fetchCall, hasMailSend_synthDraft, hME]
      rfl

theorem spec_C10_witness :
    pyLower envC10.confirmResp ≠ "y" ∧
      chosenRecipient envC10 = "none" ∧
      hasMailSend (run_concierge_agent envC10 "find sushi" []).2 = false :=
  ⟨by decide, (spec_C10 envC10 "find sushi" [] (by decide)).1,
    (spec_C10 envC10 "find sushi" [] (by decide)).2⟩

end Concierge
